import Mathlib

/-!
Verification of the exam-session logic of the PDF quiz generator.

The repository contains two parallel browser implementations of the exam
interface:

* the "basic" variant (`file-selector.js`, class `ExamInterface`), which keys
  the answer map by `currentQuestionIndex + 1` and scores by comparing the
  stored answer string with the question's `correct` field stripped of
  non-digit characters (`calculateResults`);
* the "API" variant (`script_api.js`, class `ExamInterface`), which keys the
  answer map by `question.id` and scores offline by converting the stored
  1-based position to a letter `A`... and comparing it with the `correct`
  field (`showOfflineResults`).

Below, the JavaScript state (plain object used as an integer-keyed map, `Set`
of marked ids, current index, countdown timer) is embedded as explicit Lean
state, and each operation cited by the specification is translated directly
from the corresponding source function.  DOM reads/writes, toasts, modals and
animations are pure presentation and are not part of the state; where a DOM
lookup feeds back into the logic (the radio element `option<n>` existing
exactly for `n` in `[1, options.length]` of the currently rendered question)
this is noted at the definition.
-/

namespace QuizGen

/-- A question record as produced by the backend / hardcoded fallback:
`{ id, text, options, correct }`.  `correct` is a string (in the shipped data
a letter `"A"`–`"D"`). -/
structure Question where
  id : Nat
  text : String
  options : List String
  correct : String
deriving DecidableEq, Repr

/-- The JavaScript answer object `this.answers`, a map from integer key to the
stored answer string, embedded as an association list (key order is never
observed by the code, only key count and lookups). -/
abbrev AnsMap := List (Nat × String)

/-- `this.answers[k]`: lookup of key `k`. -/
def lookupAns (l : AnsMap) (k : Nat) : Option String :=
  (l.find? (fun p => p.1 == k)).map (·.2)

/-- `this.answers[k] = v`: JavaScript property assignment — replaces the value
if the key is present, otherwise adds the key. -/
def setAns (l : AnsMap) (k : Nat) (v : String) : AnsMap :=
  if (l.find? (fun p => p.1 == k)).isSome then
    l.map (fun p => if p.1 == k then (k, v) else p)
  else
    l ++ [(k, v)]

/-- `delete this.answers[k]`: removes the key if present, no-op otherwise. -/
def eraseAns (l : AnsMap) (k : Nat) : AnsMap :=
  l.filter (fun p => !(p.1 == k))

/-- `Math.round(num / den)` for non-negative operands: round half-up. -/
def jsRound (num den : Nat) : Nat :=
  (2 * num + den) / (2 * den)

/-- `s.replace(/[^\d]/g, '')`: keep only the decimal-digit characters. -/
def stripNonDigits (s : String) : String :=
  String.mk (s.data.filter Char.isDigit)

/-- `parseInt(s)` restricted to the values this program stores (strings of
decimal digits such as `"1"`–`"4"`): parses the leading run of digits,
`none` for `NaN`. -/
def jsParseIntNat (s : String) : Option Nat :=
  let ds := s.data.takeWhile Char.isDigit
  if ds.isEmpty then none
  else some (ds.foldl (fun acc c => 10 * acc + (c.toNat - 48)) 0)

/-- `String.fromCharCode(64 + parseInt(userAnswer))` from
`showOfflineResults`: position 1 ↦ `"A"`, 2 ↦ `"B"`, ….  A `NaN` parse gives
`ToUint16(NaN) = 0`, i.e. the NUL character. -/
def answerLetter (s : String) : String :=
  match jsParseIntNat s with
  | some n => String.mk [Char.ofNat (64 + n)]
  | none => String.mk [Char.ofNat 0]

/-- The result object returned by `calculateResults` in `file-selector.js`. -/
structure ResultsA where
  total : Nat
  attempted : Nat
  correct : Nat
  incorrect : Nat
  unattempted : Nat
  percentage : Nat
deriving DecidableEq, Repr

/-- The result object assembled by `showOfflineResults` in `script_api.js`
(the wall-clock `time_taken` field is presentation-only and not modelled). -/
structure ResultsB where
  total : Nat
  correct : Nat
  incorrect : Nat
  unattempted : Nat
  percentage : Nat
deriving DecidableEq, Repr

/-- The counting loop of `calculateResults`: walks the questions with
`questionId = index + 1` (the first argument below is the id of the head
question) and returns `(correct, attempted)`.  A stored empty string is falsy
in `if (userAnswer)`, hence counts as unattempted. -/
def tallyA : List Question → AnsMap → Nat → Nat × Nat
  | [], _, _ => (0, 0)
  | q :: qs, ans, qid =>
    let rest := tallyA qs ans (qid + 1)
    match lookupAns ans qid with
    | some a =>
      if a = "" then rest
      else ((if a = stripNonDigits q.correct then rest.1 + 1 else rest.1), rest.2 + 1)
    | none => rest

/-- `calculateResults` (`file-selector.js`): scores by comparing the stored
answer string with `question.correct.replace(/[^\d]/g, '')`. -/
def calculateResults (questions : List Question) (answers : AnsMap) : ResultsA :=
  let t := tallyA questions answers 1
  { total := questions.length
    attempted := t.2
    correct := t.1
    incorrect := t.2 - t.1
    unattempted := questions.length - t.2
    percentage := jsRound (100 * t.1) questions.length }

/-- The correct-counting loop of `showOfflineResults`: for each question with
an answer entry under its `id`, convert the stored position to a letter and
compare with `question.correct`.  An empty stored string is falsy and
skipped. -/
def offlineCorrect (questions : List Question) (answers : AnsMap) : Nat :=
  questions.foldl (fun acc q =>
    match lookupAns answers q.id with
    | some a =>
      if a = "" then acc
      else if answerLetter a = q.correct then acc + 1 else acc
    | none => acc) 0

/-- `showOfflineResults` (`script_api.js`): `answeredQuestions` is
`Object.keys(this.answers).length`. -/
def showOfflineResults (questions : List Question) (answers : AnsMap) : ResultsB :=
  let total := questions.length
  let answered := answers.length
  let correct := offlineCorrect questions answers
  { total := total
    correct := correct
    incorrect := answered - correct
    unattempted := total - answered
    percentage := jsRound (100 * correct) total }

/-- The exam-session state of the API variant (`script_api.js`), restricted to
the fields the cited operations read or write: the loaded questions, the
current index, the answer map and the marked set (`Set` of ids, embedded as a
list; only membership, insertion and removal are used). -/
structure SessionB where
  questions : List Question
  currentQuestionIndex : Nat
  answers : AnsMap
  markedQuestions : List Nat
deriving DecidableEq, Repr

/-- `this.questions[this.currentQuestionIndex]` (used by
`getCurrentQuestionId`); `none` when the index is out of range, in which case
the JavaScript property access `.id` would throw. -/
def getCurrentQuestion (s : SessionB) : Option Question :=
  s.questions[s.currentQuestionIndex]?

/-- `selectOption(optionNumber)` (`script_api.js`):
`document.getElementById('option' + n)` finds a radio element exactly when the
currently rendered question has an `n`-th option (`updateDisplay` creates
`option1`…`optionLen` for the current question), so the guarded store runs
exactly for `1 ≤ n ≤ options.length`; otherwise the function returns normally
without touching `answers`. -/
def selectOption (s : SessionB) (n : Nat) : SessionB :=
  match getCurrentQuestion s with
  | some q =>
    if 1 ≤ n ∧ n ≤ q.options.length then
      { s with answers := setAns s.answers q.id (toString n) }
    else s
  | none => s

/-- The structural errors named by the specification (§7).  None of them is
raised anywhere in the source; the type exists to state the spec's claimed
failure behaviour against the code's actual behaviour. -/
inductive ExamError where
  | validationError
  | outOfRange
  | notFound
  | invalidOption
  | alreadySubmitted
deriving DecidableEq, Repr

/-- `selectOption` viewed through an error channel: the source function
completes normally on every input (the `if (option)` guard silently skips
when the element is absent), so the result is always `Except.ok`. -/
def selectOptionE (s : SessionB) (n : Nat) : Except ExamError SessionB :=
  Except.ok (selectOption s n)

/-- `clearAnswer()` (`script_api.js`):
`delete this.answers[this.getCurrentQuestionId()]`.  With the index out of
range the id access would throw (unreachable from the initial state); modelled
as a no-op. -/
def clearAnswer (s : SessionB) : SessionB :=
  match getCurrentQuestion s with
  | some q => { s with answers := eraseAns s.answers q.id }
  | none => s

/-- `nextQuestion()`: increment the index only when strictly before the last
question.  (The basic variant additionally opens the submit-confirmation modal
at the last question — pure presentation, no state field changes.) -/
def nextQuestion (s : SessionB) : SessionB :=
  if s.currentQuestionIndex < s.questions.length - 1 then
    { s with currentQuestionIndex := s.currentQuestionIndex + 1 }
  else s

/-- `previousQuestion()`: decrement the index only when positive. -/
def previousQuestion (s : SessionB) : SessionB :=
  if 0 < s.currentQuestionIndex then
    { s with currentQuestionIndex := s.currentQuestionIndex - 1 }
  else s

/-- `goToQuestion(questionIndex)`: set the index only when
`0 ≤ i < questions.length` (the argument can be any number, e.g. the
progress-bar click handler computes it by flooring). -/
def goToQuestion (s : SessionB) (i : Int) : SessionB :=
  if 0 ≤ i ∧ i < (s.questions.length : Int) then
    { s with currentQuestionIndex := i.toNat }
  else s

/-- `markForReview()`: toggle membership of the current question's id in the
marked set. -/
def markForReview (s : SessionB) : SessionB :=
  match getCurrentQuestion s with
  | some q =>
    if q.id ∈ s.markedQuestions then
      { s with markedQuestions := s.markedQuestions.filter (fun m => !(m == q.id)) }
    else
      { s with markedQuestions := s.markedQuestions ++ [q.id] }
  | none => s

/-- The user-driven session operations cited by the specification. -/
inductive Op where
  | select (n : Nat)
  | clear
  | mark
  | next
  | prev
  | goTo (i : Int)
deriving DecidableEq, Repr

def applyOp (s : SessionB) : Op → SessionB
  | Op.select n => selectOption s n
  | Op.clear => clearAnswer s
  | Op.mark => markForReview s
  | Op.next => nextQuestion s
  | Op.prev => previousQuestion s
  | Op.goTo i => goToQuestion s i

def runOps (s : SessionB) : List Op → SessionB
  | [] => s
  | o :: rest => runOps (applyOp s o) rest

/-- The constructor state of `ExamInterface`: index 0, empty answer map,
empty marked set, with the loaded question list. -/
def initSession (qs : List Question) : SessionB :=
  { questions := qs
    currentQuestionIndex := 0
    answers := []
    markedQuestions := [] }

/-- The submission-relevant state of the basic variant: `submitExam()` clears
the timer interval, computes `calculateResults()` and renders it via
`showResults`.  `shownReports` records, in order, each report the interface
computed and displayed (one per `submitExam` call). -/
structure ExamStateA where
  questions : List Question
  answers : AnsMap
  timerActive : Bool
  shownReports : List ResultsA
deriving DecidableEq, Repr

/-- `submitExam()` (`file-selector.js`): unconditional — there is no status
flag and no already-submitted guard in the source. -/
def submitExam (s : ExamStateA) : ExamStateA :=
  { s with
    timerActive := false
    shownReports := s.shownReports ++ [calculateResults s.questions s.answers] }

/-- The countdown state driven by the `setInterval` timer.  `timerActive`
is `this.timerInterval` being live: `clearInterval` (called by
`autoSubmitExam` / `timeUp` and by `submitExam`) makes every later interval
firing a no-op.  `submitted` records the transition into the terminal
submitted state. -/
structure TimerSession where
  questions : List Question
  answers : AnsMap
  timeRemaining : Int
  timerActive : Bool
  submitted : Bool
  shownReports : List ResultsA
deriving DecidableEq, Repr

/-- One firing of the `setInterval` callback (`startTimer`):
`this.timeRemaining--`, then `if (this.timeRemaining <= 0)` auto-submit —
`clearInterval` plus `submitExam`, which computes and shows the report.  When
the interval has been cleared the callback never runs again: a tick on an
inactive timer is the identity. -/
def tick (s : TimerSession) : TimerSession :=
  if s.timerActive then
    let t := s.timeRemaining - 1
    if t ≤ 0 then
      { s with
        timeRemaining := t
        timerActive := false
        submitted := true
        shownReports := s.shownReports ++ [calculateResults s.questions s.answers] }
    else { s with timeRemaining := t }
  else s

/-- The constructor state of the timer: `this.timeRemaining = 90 * 60` in the
source; the limit is kept as a parameter `T`. -/
def initTimer (qs : List Question) (ans : AnsMap) (T : Nat) : TimerSession :=
  { questions := qs
    answers := ans
    timeRemaining := (T : Int)
    timerActive := true
    submitted := false
    shownReports := [] }

/-- `n` firings of the interval callback. -/
def tickIter (s : TimerSession) : Nat → TimerSession
  | 0 => s
  | n + 1 => tick (tickIter s n)

/-- The question-loading decision of `loadQuestions` (`script_api.js`): the
API response is accepted only when `data.status === 'success'` and
`data.questions` is a non-empty array; every other outcome (including a failed
fetch, modelled as `none`) throws inside the `try` and lands in the `catch`
block, which installs the hardcoded fallback set.  No id-uniqueness,
correct-option-range or option-count validation exists. -/
structure ApiResponse where
  status : String
  questions : List Question
deriving DecidableEq, Repr

/-- The ten hardcoded fallback questions of `script_api.js` (identical in
`file-selector.js`). -/
def fallbackQuestions : List Question :=
  [⟨1, "But just then, both of them were ______ by the soldiers",
    ["A. system", "B. process", "C. method", "D. captured"], "D"⟩,
   ⟨2, "______ is not innocent such as Uday",
    ["A. Method", "B. System", "C. Process", "D. Harmit"], "D"⟩,
   ⟨3, "The following ______ has been divided into four segments",
    ["A. process", "B. sentence", "C. method", "D. system"], "B"⟩,
   ⟨4, "If there is no need to substitute it, select No substitution ______",
    ["A. method", "B. required", "C. process", "D. system"], "B"⟩,
   ⟨5, "But, when the ______ was thrown in front of the lion, the lion licked him and quietly sat beside him",
    ["A. system", "B. slave", "C. method", "D. process"], "B"⟩,
   ⟨6, "______ out a tower of pots",
    ["A. knock", "B. process", "C. method", "D. system"], "A"⟩,
   ⟨7, "The following sentence has been divided into four ______",
    ["A. method", "B. system", "C. process", "D. segments"], "D"⟩,
   ⟨8, "How is the structure of health infrastructure and health care system in ______",
    ["A. Process", "B. Method", "C. System", "D. India"], "D"⟩,
   ⟨9, "Parts of the following sentence have been underlined and given as ______",
    ["A. options", "B. process", "C. system", "D. method"], "A"⟩,
   ⟨10, "Read the passage carefully and select the most ______ option to fill in each blank",
    ["A. appropriate", "B. process", "C. system", "D. method"], "A"⟩]

/-- `loadQuestions` (`script_api.js`), reduced to its question-set decision. -/
def loadQuestions (resp : Option ApiResponse) : List Question :=
  match resp with
  | some d =>
    if d.status = "success" ∧ d.questions ≠ [] then d.questions
    else fallbackQuestions
  | none => fallbackQuestions

/-- The basic variant's `selectOption(value)` effect on the answer map
(`file-selector.js`): the store is keyed by `currentQuestionIndex + 1`, not by
`question.id`.  For a position with no rendered radio input the preceding DOM
lookup `document.querySelector(...)` is `null` and `.closest` throws a
`TypeError` before the store, leaving the map unchanged; modelled as a no-op
on the map. -/
def selectOptionA (questions : List Question) (idx : Nat) (ans : AnsMap) (n : Nat) : AnsMap :=
  match questions[idx]? with
  | some q =>
    if 1 ≤ n ∧ n ≤ q.options.length then setAns ans (idx + 1) (toString n)
    else ans
  | none => ans

/-! Concrete instances used by the claim scenarios below. -/

/-- The C1 scenario question set in the digit encoding read by the basic
variant's comparison (`correct` stripped of non-digits must equal the stored
position string): correct options 2, 1, 3. -/
def qsC1A : List Question :=
  [⟨1, "q1", ["1", "2", "3", "4"], "2"⟩,
   ⟨2, "q2", ["1", "2", "3", "4"], "1"⟩,
   ⟨3, "q3", ["1", "2", "3", "4"], "3"⟩]

/-- The C1 scenario question set in the letter encoding read by the API
variant (positions 2, 1, 3 are letters B, A, C). -/
def qsC1B : List Question :=
  [⟨1, "q1", ["A. a", "B. b", "C. c", "D. d"], "B"⟩,
   ⟨2, "q2", ["A. a", "B. b", "C. c", "D. d"], "A"⟩,
   ⟨3, "q3", ["A. a", "B. b", "C. c", "D. d"], "C"⟩]

/-- A one-question session with four options, for the C4 scenario. -/
def sessC4 : SessionB :=
  initSession [⟨1, "t", ["A. w", "B. x", "C. y", "D. z"], "D"⟩]

/-- A concrete pre-submission state for the C3 scenario. -/
def examC3 : ExamStateA :=
  { questions := [⟨1, "t", ["A. w", "B. x", "C. y", "D. z"], "D"⟩]
    answers := [(1, "4")]
    timerActive := true
    shownReports := [] }

/-- A four-option question whose correct answer is letter-encoded, for the
C10 divergence scenario. -/
def qsC10 : List Question := [⟨1, "t", ["A. w", "B. x", "C. y", "D. z"], "D"⟩]

/-- Letter-encoded two-question set for the C10 amended witness. -/
def qsC10W : List Question :=
  [⟨1, "u", ["A. w", "B. x"], "A"⟩, ⟨2, "v", ["A. w", "B. x"], "B"⟩]

/-- A three-option question set for the C5 witness. -/
def qsC5W : List Question := [⟨1, "u", ["A. w", "B. x"], "A"⟩]

/-- A two-question session for the C6 witness. -/
def sessC6W : SessionB :=
  { questions := qsC1B
    currentQuestionIndex := 1
    answers := [(1, "2")]
    markedQuestions := [3] }

/-- A question with id 7, for the C7 witness. -/
def qsC7W : List Question := [⟨7, "t", ["A. w", "B. x", "C. y", "D. z"], "D"⟩]

/-- A one-question session for the C9 witness. -/
def qC9W : Question := ⟨4, "t", ["A. w", "B. x", "C. y"], "C"⟩

def sessC9W : SessionB := initSession [qC9W]

/-- The property C7 asserts of every reachable answer map: each entry is
keyed by the id of a question of the set and stores a 1-based in-range
position rendered as a decimal string. -/
def answersWellFormed (qs : List Question) (ans : AnsMap) : Prop :=
  ∀ kv ∈ ans, ∃ q ∈ qs, q.id = kv.1 ∧ ∃ n, 1 ≤ n ∧ n ≤ q.options.length ∧ kv.2 = toString n

/-! ## Helper lemmas -/

theorem find?_eq_none_of_lookup_none {l : AnsMap} {k : Nat}
    (h : lookupAns l k = none) : l.find? (fun p => p.1 == k) = none := by
  unfold lookupAns at h
  exact Option.map_eq_none'.mp h

theorem eraseAns_of_lookup_none {l : AnsMap} {k : Nat}
    (h : lookupAns l k = none) : eraseAns l k = l := by
  have hf := find?_eq_none_of_lookup_none h
  rw [List.find?_eq_none] at hf
  unfold eraseAns
  apply List.filter_eq_self.mpr
  intro p hp
  simpa using hf p hp

theorem setAns_of_lookup_none {l : AnsMap} {k : Nat} (v : String)
    (h : lookupAns l k = none) : setAns l k v = l ++ [(k, v)] := by
  have hf := find?_eq_none_of_lookup_none h
  unfold setAns
  rw [hf]
  rfl

theorem mem_setAns {l : AnsMap} {k : Nat} {v : String} {kv : Nat × String}
    (h : kv ∈ setAns l k v) : kv = (k, v) ∨ kv ∈ l := by
  unfold setAns at h
  split at h
  · rw [List.mem_map] at h
    obtain ⟨p, hp, he⟩ := h
    by_cases hk : (p.1 == k) = true
    · rw [if_pos hk] at he
      exact Or.inl he.symm
    · rw [if_neg hk] at he
      exact Or.inr (he ▸ hp)
  · rw [List.mem_append] at h
    rcases h with h | h
    · exact Or.inr h
    · exact Or.inl (by simpa using h)

theorem eraseAns_append (l₁ l₂ : AnsMap) (k : Nat) :
    eraseAns (l₁ ++ l₂) k = eraseAns l₁ k ++ eraseAns l₂ k :=
  List.filter_append ..

theorem tallyA_le (qs : List Question) (ans : AnsMap) :
    ∀ i, (tallyA qs ans i).1 ≤ (tallyA qs ans i).2 ∧ (tallyA qs ans i).2 ≤ qs.length := by
  induction qs with
  | nil => intro i; simp [tallyA]
  | cons q rest ih =>
    intro i
    have h := ih (i + 1)
    show (tallyA (q :: rest) ans i).1 ≤ (tallyA (q :: rest) ans i).2
      ∧ (tallyA (q :: rest) ans i).2 ≤ (q :: rest).length
    unfold tallyA
    cases lookupAns ans i with
    | none => simpa using ⟨h.1, Nat.le_succ_of_le h.2⟩
    | some a =>
      simp only
      split
      · simpa using ⟨h.1, Nat.le_succ_of_le h.2⟩
      · split <;> simp <;> omega

theorem tallyA_correct_eq_zero (qs : List Question) (ans : AnsMap)
    (h : ∀ q ∈ qs, stripNonDigits q.correct = "") :
    ∀ i, (tallyA qs ans i).1 = 0 := by
  induction qs with
  | nil => intro i; simp [tallyA]
  | cons q rest ih =>
    intro i
    have hq : stripNonDigits q.correct = "" := h q (by simp)
    have hr := ih (fun p hp => h p (List.mem_cons_of_mem q hp)) (i + 1)
    show (tallyA (q :: rest) ans i).1 = 0
    unfold tallyA
    cases lookupAns ans i with
    | none => simpa using hr
    | some a =>
      simp only
      split
      · simpa using hr
      · have hne : ¬ (a = stripNonDigits q.correct) := by
          rw [hq]
          assumption
        rw [if_neg hne]
        simpa using hr

theorem nextQuestion_answers (s : SessionB) : (nextQuestion s).answers = s.answers := by
  unfold nextQuestion; split <;> rfl

theorem nextQuestion_marked (s : SessionB) :
    (nextQuestion s).markedQuestions = s.markedQuestions := by
  unfold nextQuestion; split <;> rfl

theorem nextQuestion_questions (s : SessionB) :
    (nextQuestion s).questions = s.questions := by
  unfold nextQuestion; split <;> rfl

theorem previousQuestion_answers (s : SessionB) :
    (previousQuestion s).answers = s.answers := by
  unfold previousQuestion; split <;> rfl

theorem previousQuestion_marked (s : SessionB) :
    (previousQuestion s).markedQuestions = s.markedQuestions := by
  unfold previousQuestion; split <;> rfl

theorem previousQuestion_questions (s : SessionB) :
    (previousQuestion s).questions = s.questions := by
  unfold previousQuestion; split <;> rfl

theorem goToQuestion_answers (s : SessionB) (i : Int) :
    (goToQuestion s i).answers = s.answers := by
  unfold goToQuestion; split <;> rfl

theorem goToQuestion_marked (s : SessionB) (i : Int) :
    (goToQuestion s i).markedQuestions = s.markedQuestions := by
  unfold goToQuestion; split <;> rfl

theorem goToQuestion_questions (s : SessionB) (i : Int) :
    (goToQuestion s i).questions = s.questions := by
  unfold goToQuestion; split <;> rfl

theorem selectOption_questions (s : SessionB) (n : Nat) :
    (selectOption s n).questions = s.questions := by
  unfold selectOption
  cases getCurrentQuestion s with
  | none => rfl
  | some q => simp only; split <;> rfl

theorem selectOption_index (s : SessionB) (n : Nat) :
    (selectOption s n).currentQuestionIndex = s.currentQuestionIndex := by
  unfold selectOption
  cases getCurrentQuestion s with
  | none => rfl
  | some q => simp only; split <;> rfl

theorem clearAnswer_questions (s : SessionB) :
    (clearAnswer s).questions = s.questions := by
  unfold clearAnswer
  cases getCurrentQuestion s <;> rfl

theorem markForReview_questions (s : SessionB) :
    (markForReview s).questions = s.questions := by
  unfold markForReview
  cases getCurrentQuestion s with
  | none => rfl
  | some q => simp only; split <;> rfl

theorem markForReview_answers (s : SessionB) :
    (markForReview s).answers = s.answers := by
  unfold markForReview
  cases getCurrentQuestion s with
  | none => rfl
  | some q => simp only; split <;> rfl

theorem applyOp_questions (s : SessionB) (o : Op) :
    (applyOp s o).questions = s.questions := by
  cases o with
  | select n => exact selectOption_questions s n
  | clear => exact clearAnswer_questions s
  | mark => exact markForReview_questions s
  | next => exact nextQuestion_questions s
  | prev => exact previousQuestion_questions s
  | goTo i => exact goToQuestion_questions s i

theorem mem_of_getCurrentQuestion {s : SessionB} {q : Question}
    (hq : getCurrentQuestion s = some q) : q ∈ s.questions := by
  unfold getCurrentQuestion at hq
  rw [List.getElem?_eq_some] at hq
  obtain ⟨hlt, rfl⟩ := hq
  exact List.getElem_mem hlt

theorem applyOp_answersWellFormed {qs : List Question} (s : SessionB) (o : Op)
    (hqs : s.questions = qs) (h : answersWellFormed qs s.answers) :
    answersWellFormed qs (applyOp s o).answers := by
  cases o with
  | select n =>
    show answersWellFormed qs (selectOption s n).answers
    unfold selectOption
    cases hq : getCurrentQuestion s with
    | none => exact h
    | some q =>
      simp only
      split
      · next hn =>
        intro kv hkv
        rcases mem_setAns hkv with rfl | hkv'
        · exact ⟨q, hqs ▸ mem_of_getCurrentQuestion hq, rfl, n, hn.1, hn.2, rfl⟩
        · exact h kv hkv'
      · exact h
  | clear =>
    show answersWellFormed qs (clearAnswer s).answers
    unfold clearAnswer
    cases getCurrentQuestion s with
    | none => exact h
    | some q =>
      intro kv hkv
      exact h kv (List.mem_of_mem_filter hkv)
  | mark => rw [show (applyOp s Op.mark).answers = s.answers from markForReview_answers s]; exact h
  | next => rw [show (applyOp s Op.next).answers = s.answers from nextQuestion_answers s]; exact h
  | prev => rw [show (applyOp s Op.prev).answers = s.answers from previousQuestion_answers s]; exact h
  | goTo i => rw [show (applyOp s (Op.goTo i)).answers = s.answers from goToQuestion_answers s i]; exact h

theorem runOps_answersWellFormed {qs : List Question} (ops : List Op) :
    ∀ s : SessionB, s.questions = qs → answersWellFormed qs s.answers →
      answersWellFormed qs (runOps s ops).answers := by
  induction ops with
  | nil => intro s _ h; exact h
  | cons o rest ih =>
    intro s hqs h
    exact ih (applyOp s o) ((applyOp_questions s o).trans hqs) (applyOp_answersWellFormed s o hqs h)

theorem tickIter_spec (qs : List Question) (ans : AnsMap) (T : Nat) (hT : 1 ≤ T) :
    ∀ n, tickIter (initTimer qs ans T) n =
      if n < T then
        { questions := qs, answers := ans, timeRemaining := (T : Int) - n,
          timerActive := true, submitted := false, shownReports := [] }
      else
        { questions := qs, answers := ans, timeRemaining := 0,
          timerActive := false, submitted := true,
          shownReports := [calculateResults qs ans] } := by
  intro n
  induction n with
  | zero =>
    rw [if_pos (by omega)]
    simp [tickIter, initTimer]
  | succ n ih =>
    show tick (tickIter (initTimer qs ans T) n) = _
    rw [ih]
    by_cases h1 : n < T
    · rw [if_pos h1]
      by_cases h2 : n + 1 < T
      · rw [if_pos h2]
        unfold tick
        rw [if_pos rfl, if_neg (by push_cast; omega)]
        simp only
        congr 1
        push_cast
        ring
      · rw [if_neg h2]
        unfold tick
        rw [if_pos rfl, if_pos (by push_cast; omega)]
        simp only
        congr 1
        omega
    · rw [if_neg h1, if_neg (by omega)]
      unfold tick
      rw [if_neg (by simp)]

/-! ## Claims -/

/-- C1.  For a QuestionSet of 3 questions with correct options 2, 1, 3,
answering question 1 with position 2 (correct), question 2 with position 2
(incorrect) and leaving question 3 unanswered, submission yields the report
total 3, correct 1, incorrect 1, unattempted 1, percentage 33 (half-up
rounding of 100·1/3).  Verified for both cited scoring routines:
`calculateResults` on the answer map produced by the basic variant's
`selectOption` stores (keyed by index + 1, digit-encoded correct fields), and
`showOfflineResults` on the answer map produced by the API variant's
session operations (keyed by question id, letter-encoded correct fields). -/
theorem c1_submit_scenario :
    calculateResults qsC1A (selectOptionA qsC1A 1 (selectOptionA qsC1A 0 [] 2) 2)
      = ⟨3, 2, 1, 1, 1, 33⟩
    ∧ showOfflineResults qsC1B
        (runOps (initSession qsC1B) [Op.select 2, Op.next, Op.select 2]).answers
      = ⟨3, 1, 1, 1, 33⟩ := by
  decide

/-- C2.  For every question set, answer map and configured limit `T ≥ 1`
(the source uses 5400), after `n` timer ticks the remaining time is
`max (T - n) 0` — it decreases by one per tick while positive, is floored at
0 and never goes negative; exactly one auto-submission (transition to the
submitted state, with exactly one computed report) happens, at the tick that
reaches 0; and every tick after that point is a no-op. -/
theorem c2_tick_countdown (qs : List Question) (ans : AnsMap) (T n : Nat) (hT : 1 ≤ T) :
    (tickIter (initTimer qs ans T) n).timeRemaining = max ((T : Int) - n) 0
    ∧ 0 ≤ (tickIter (initTimer qs ans T) n).timeRemaining
    ∧ (tickIter (initTimer qs ans T) n).shownReports.length = (if T ≤ n then 1 else 0)
    ∧ (tickIter (initTimer qs ans T) n).submitted = decide (T ≤ n)
    ∧ (T ≤ n → tick (tickIter (initTimer qs ans T) n) = tickIter (initTimer qs ans T) n) := by
  rw [tickIter_spec qs ans T hT n]
  by_cases h : n < T
  · rw [if_pos h]
    refine ⟨?_, ?_, ?_, ?_, ?_⟩
    · show (T : Int) - n = max ((T : Int) - n) 0
      omega
    · show (0 : Int) ≤ (T : Int) - n
      omega
    · show ([] : List ResultsA).length = if T ≤ n then 1 else 0
      rw [if_neg (by omega)]
      rfl
    · show false = decide (T ≤ n)
      simp [show ¬ T ≤ n by omega]
    · intro hc
      exact absurd hc (by omega)
  · rw [if_neg h]
    refine ⟨?_, ?_, ?_, ?_, ?_⟩
    · show (0 : Int) = max ((T : Int) - n) 0
      omega
    · show (0 : Int) ≤ 0
      omega
    · show [calculateResults qs ans].length = if T ≤ n then 1 else 0
      rw [if_pos (by omega)]
      rfl
    · show true = decide (T ≤ n)
      simp [show T ≤ n by omega]
    · intro _
      unfold tick
      rw [if_neg (by simp)]

theorem c2_witness :
    1 ≤ 2
    ∧ ((tickIter (initTimer qsC1B [] 2) 3).timeRemaining = max ((2 : Int) - 3) 0
    ∧ 0 ≤ (tickIter (initTimer qsC1B [] 2) 3).timeRemaining
    ∧ (tickIter (initTimer qsC1B [] 2) 3).shownReports.length = (if 2 ≤ 3 then 1 else 0)
    ∧ (tickIter (initTimer qsC1B [] 2) 3).submitted = decide (2 ≤ 3)
    ∧ (2 ≤ 3 → tick (tickIter (initTimer qsC1B [] 2) 3) = tickIter (initTimer qsC1B [] 2) 3)) :=
  ⟨by decide, c2_tick_countdown qsC1B [] 2 3 (by decide)⟩

/-- C3, counterexample.  The claim states that a second `submit()` fails with
`AlreadySubmitted` and that no second scoring computation takes place.  In the
source, `submitExam` has no submitted-state guard: a second call returns
normally and computes and shows the results a second time, so the list of
shown reports after two calls differs from the list after one call. -/
theorem c3_counterexample :
    (submitExam (submitExam examC3)).shownReports ≠ (submitExam examC3).shownReports := by
  decide

/-- C3, amended.  A second `submitExam` call does not fail — no
`AlreadySubmitted` status exists in the code — and it re-runs the scoring
computation; since the answers are unchanged between the two calls, the
second computed report equals the first. -/
theorem c3_amended_second_submit_recomputes_same_report (s : ExamStateA) :
    (submitExam (submitExam s)).shownReports
      = s.shownReports ++ [calculateResults s.questions s.answers,
                           calculateResults s.questions s.answers] := by
  simp [submitExam]

/-- C4, counterexample.  `selectOption(5)` on a question with 4 options does
not fail with `InvalidOption`: the API variant's guard `if (option)` silently
skips the store and the call returns normally, the state unchanged (the
answers map in particular). -/
theorem c4_counterexample :
    selectOptionE sessC4 5 ≠ Except.error ExamError.invalidOption
    ∧ selectOptionE sessC4 5 = Except.ok sessC4 := by
  have hok : selectOptionE sessC4 5 = Except.ok sessC4 :=
    congrArg Except.ok (by decide)
  refine ⟨?_, hok⟩
  rw [hok]
  exact fun hcontra => Except.noConfusion hcontra

/-- C4, amended.  For the question at the current index, `selectOption` with a
position outside `[1, options.length]` leaves the whole session — the answers
map in particular — unchanged, but it does not fail with `InvalidOption`: the
API variant returns normally as a no-op (and the basic variant instead throws
a `TypeError` at the null DOM lookup, likewise before any store). -/
theorem c4_amended_out_of_range_select_is_noop (s : SessionB) (n : Nat) (q : Question)
    (hq : getCurrentQuestion s = some q) (hn : n = 0 ∨ q.options.length < n) :
    selectOptionE s n = Except.ok s := by
  unfold selectOptionE selectOption
  rw [hq]
  exact congrArg Except.ok (if_neg (by omega))

theorem c4_witness :
    (getCurrentQuestion sessC4 = some ⟨1, "t", ["A. w", "B. x", "C. y", "D. z"], "D"⟩
      ∧ ((5 : Nat) = 0 ∨ (["A. w", "B. x", "C. y", "D. z"] : List String).length < 5))
    ∧ selectOptionE sessC4 5 = Except.ok sessC4 :=
  ⟨⟨by decide, by decide⟩,
   c4_amended_out_of_range_select_is_noop sessC4 5
     ⟨1, "t", ["A. w", "B. x", "C. y", "D. z"], "D"⟩ (by decide) (by decide)⟩

/-- C5.  For every non-empty question set and every answers map, the report
computed by the scoring routine (`calculateResults`) satisfies
`correct + incorrect + unattempted = total` and `0 ≤ percentage ≤ 100`. -/
theorem c5_score_report_consistent (questions : List Question) (answers : AnsMap)
    (h : questions ≠ []) :
    (calculateResults questions answers).correct
        + (calculateResults questions answers).incorrect
        + (calculateResults questions answers).unattempted
      = (calculateResults questions answers).total
    ∧ 0 ≤ (calculateResults questions answers).percentage
    ∧ (calculateResults questions answers).percentage ≤ 100 := by
  obtain ⟨h1, h2⟩ := tallyA_le questions answers 1
  have hlen : 1 ≤ questions.length := List.length_pos.mpr h
  refine ⟨?_, Nat.zero_le _, ?_⟩
  · show (tallyA questions answers 1).1
        + ((tallyA questions answers 1).2 - (tallyA questions answers 1).1)
        + (questions.length - (tallyA questions answers 1).2)
      = questions.length
    omega
  · show jsRound (100 * (tallyA questions answers 1).1) questions.length ≤ 100
    unfold jsRound
    have hc : (tallyA questions answers 1).1 ≤ questions.length := h1.trans h2
    rw [← Nat.lt_succ_iff, Nat.div_lt_iff_lt_mul (by omega)]
    omega

theorem c5_witness :
    qsC5W ≠ []
    ∧ ((calculateResults qsC5W [(1, "2")]).correct
        + (calculateResults qsC5W [(1, "2")]).incorrect
        + (calculateResults qsC5W [(1, "2")]).unattempted
      = (calculateResults qsC5W [(1, "2")]).total
    ∧ 0 ≤ (calculateResults qsC5W [(1, "2")]).percentage
    ∧ (calculateResults qsC5W [(1, "2")]).percentage ≤ 100) :=
  ⟨by decide, c5_score_report_consistent qsC5W [(1, "2")] (by decide)⟩

/-- C6.  As long as the current index is in range, each navigation operation
(`goToQuestion` with an arbitrary index argument, `nextQuestion`,
`previousQuestion`) leaves the answers map and the marked set unchanged and
keeps the current index inside `[0, questions.length - 1]`; `nextQuestion` at
the last question does not change the index (the basic variant opens the
submit-confirmation modal there instead). -/
theorem c6_navigation_frame (s : SessionB) (i : Int)
    (h : s.currentQuestionIndex < s.questions.length) :
    (nextQuestion s).answers = s.answers
    ∧ (nextQuestion s).markedQuestions = s.markedQuestions
    ∧ (previousQuestion s).answers = s.answers
    ∧ (previousQuestion s).markedQuestions = s.markedQuestions
    ∧ (goToQuestion s i).answers = s.answers
    ∧ (goToQuestion s i).markedQuestions = s.markedQuestions
    ∧ (nextQuestion s).currentQuestionIndex < s.questions.length
    ∧ (previousQuestion s).currentQuestionIndex < s.questions.length
    ∧ (goToQuestion s i).currentQuestionIndex < s.questions.length
    ∧ (s.currentQuestionIndex = s.questions.length - 1 →
        (nextQuestion s).currentQuestionIndex = s.currentQuestionIndex) := by
  refine ⟨nextQuestion_answers s, nextQuestion_marked s, previousQuestion_answers s,
    previousQuestion_marked s, goToQuestion_answers s i, goToQuestion_marked s i,
    ?_, ?_, ?_, ?_⟩
  · unfold nextQuestion
    split
    · next hlt =>
      show s.currentQuestionIndex + 1 < s.questions.length
      omega
    · exact h
  · unfold previousQuestion
    split
    · next hpos =>
      show s.currentQuestionIndex - 1 < s.questions.length
      omega
    · exact h
  · unfold goToQuestion
    split
    · next hi =>
      show i.toNat < s.questions.length
      omega
    · exact h
  · intro hlast
    unfold nextQuestion
    rw [if_neg (by omega)]

theorem c6_witness :
    sessC6W.currentQuestionIndex < sessC6W.questions.length
    ∧ ((nextQuestion sessC6W).answers = sessC6W.answers
    ∧ (nextQuestion sessC6W).markedQuestions = sessC6W.markedQuestions
    ∧ (previousQuestion sessC6W).answers = sessC6W.answers
    ∧ (previousQuestion sessC6W).markedQuestions = sessC6W.markedQuestions
    ∧ (goToQuestion sessC6W 5).answers = sessC6W.answers
    ∧ (goToQuestion sessC6W 5).markedQuestions = sessC6W.markedQuestions
    ∧ (nextQuestion sessC6W).currentQuestionIndex < sessC6W.questions.length
    ∧ (previousQuestion sessC6W).currentQuestionIndex < sessC6W.questions.length
    ∧ (goToQuestion sessC6W 5).currentQuestionIndex < sessC6W.questions.length
    ∧ (sessC6W.currentQuestionIndex = sessC6W.questions.length - 1 →
        (nextQuestion sessC6W).currentQuestionIndex = sessC6W.currentQuestionIndex)) :=
  ⟨by decide, c6_navigation_frame sessC6W 5 (by decide)⟩

/-- C7.  In every session state reachable from the initial state by the user
operations, every entry of the answers map is keyed by the id of some
question of the set — `selectOption` stores under the current question's id
and `clearAnswer` deletes under the current question's id — and every stored
value is a 1-based option position (in range for that question), rendered as
its decimal string. -/
theorem c7_answers_keyed_by_question_id (qs : List Question) (ops : List Op)
    (kv : Nat × String) (hkv : kv ∈ (runOps (initSession qs) ops).answers) :
    ∃ q ∈ qs, q.id = kv.1 ∧ ∃ n, 1 ≤ n ∧ n ≤ q.options.length ∧ kv.2 = toString n :=
  runOps_answersWellFormed ops (initSession qs) rfl (fun _ hx => absurd hx (by simp [initSession]))
    kv hkv

theorem c7_witness :
    (7, "2") ∈ (runOps (initSession qsC7W) [Op.select 2]).answers
    ∧ (∃ q ∈ qsC7W, q.id = 7 ∧ ∃ n, 1 ≤ n ∧ n ≤ q.options.length ∧ "2" = toString n) :=
  ⟨by decide, c7_answers_keyed_by_question_id qsC7W [Op.select 2] (7, "2") (by decide)⟩

/-- C8, counterexample.  The claim states that construction from an empty
question sequence fails with `ValidationError` and produces no question set.
In `loadQuestions`, an empty response array throws a plain `Error` inside the
`try`, and the `catch` block installs the hardcoded 10-question fallback set:
a (non-empty) question set IS produced, and no `ValidationError` surfaces. -/
theorem c8_counterexample :
    loadQuestions (some ⟨"success", []⟩) = fallbackQuestions
    ∧ fallbackQuestions.length = 10 := by
  exact ⟨rfl, rfl⟩

/-- C8, amended.  An empty question sequence does not yield a
`ValidationError` failure: the thrown internal error is caught and the
hardcoded fallback set is used, whatever the response status; and no
duplicate-id (or per-question invariant) validation exists — a list that
repeats one question verbatim is accepted unchanged. -/
theorem c8_amended_fallback_and_no_validation (st : String) (q : Question) :
    loadQuestions (some ⟨st, []⟩) = fallbackQuestions
    ∧ loadQuestions (some ⟨"success", [q, q]⟩) = [q, q] := by
  constructor
  · show (if st = "success" ∧ ([] : List Question) ≠ [] then ([] : List Question)
        else fallbackQuestions) = fallbackQuestions
    rw [if_neg (by simp)]
  · show (if ("success" : String) = "success" ∧ ([q, q] : List Question) ≠ [] then [q, q]
        else fallbackQuestions) = [q, q]
    rw [if_pos ⟨rfl, by simp⟩]

/-- C9.  If the current question has no entry in the answers map, then
`selectOption` (with any position) followed by `clearAnswer` restores the
answers map to its prior state, and `clearAnswer` alone is a no-op on the
whole session. -/
theorem c9_select_then_clear_roundtrip (s : SessionB) (n : Nat) (q : Question)
    (hq : getCurrentQuestion s = some q)
    (habs : lookupAns s.answers q.id = none) :
    (clearAnswer (selectOption s n)).answers = s.answers
    ∧ clearAnswer s = s := by
  have hclear : clearAnswer s = s := by
    unfold clearAnswer
    rw [hq]
    show { s with answers := eraseAns s.answers q.id } = s
    rw [eraseAns_of_lookup_none habs]
  refine ⟨?_, hclear⟩
  by_cases hn : 1 ≤ n ∧ n ≤ q.options.length
  · have hsel : selectOption s n = { s with answers := setAns s.answers q.id (toString n) } := by
      unfold selectOption
      rw [hq]
      exact if_pos hn
    rw [hsel]
    unfold clearAnswer
    have hq' : getCurrentQuestion { s with answers := setAns s.answers q.id (toString n) }
        = some q := hq
    rw [hq']
    show eraseAns (setAns s.answers q.id (toString n)) q.id = s.answers
    rw [setAns_of_lookup_none _ habs, eraseAns_append, eraseAns_of_lookup_none habs]
    show s.answers ++ eraseAns [(q.id, toString n)] q.id = s.answers
    simp [eraseAns]
  · have hsel : selectOption s n = s := by
      unfold selectOption
      rw [hq]
      exact if_neg hn
    rw [hsel, hclear]

theorem c9_witness :
    (getCurrentQuestion sessC9W = some qC9W ∧ lookupAns sessC9W.answers qC9W.id = none)
    ∧ ((clearAnswer (selectOption sessC9W 2)).answers = sessC9W.answers
        ∧ clearAnswer sessC9W = sessC9W) :=
  ⟨⟨by decide, by decide⟩, c9_select_then_clear_roundtrip sessC9W 2 qC9W (by decide) (by decide)⟩

/-- C10, counterexample.  The two scoring routines are not score-equivalent.
Applying the single selection "position 4 on the one (four-option) question"
identically to both variants stores the same answer map `[(1, "4")]` (the
basic variant keys by `index + 1 = 1`, the API variant by `id = 1`), yet on
the letter-encoded question (`correct = "D"`) `calculateResults` counts 0
correct (it compares `"4"` with `"D"` stripped of non-digits, the empty
string) while `showOfflineResults` counts 1 correct (it compares the letter
`"D"` derived from position 4 with `"D"`). -/
theorem c10_counterexample :
    selectOptionA qsC10 0 [] 4 = (runOps (initSession qsC10) [Op.select 4]).answers
    ∧ (calculateResults qsC10 (selectOptionA qsC10 0 [] 4)).correct
        ≠ (showOfflineResults qsC10 (runOps (initSession qsC10) [Op.select 4]).answers).correct
    ∧ (calculateResults qsC10 (selectOptionA qsC10 0 [] 4)).percentage
        ≠ (showOfflineResults qsC10 (runOps (initSession qsC10) [Op.select 4]).answers).percentage := by
  decide

/-- C10, amended.  The two implementations agree on the `total` field, but
they are not score-equivalent: whenever every question's `correct` field
contains no digit characters (the letter encoding actually shipped),
`calculateResults` counts zero answers correct for every answers map — its
comparison against the digit-stripped `correct` field (always the empty
string, while stored answers are non-empty digit strings) can never succeed —
whereas `showOfflineResults` maps stored positions to letters and can count
them correct.  The reports therefore coincide only when the API variant also
scores zero correct. -/
theorem c10_amended_basic_variant_scores_zero_on_letters (qs : List Question) (ans : AnsMap)
    (h : ∀ q ∈ qs, stripNonDigits q.correct = "") :
    (calculateResults qs ans).correct = 0
    ∧ (calculateResults qs ans).total = (showOfflineResults qs ans).total :=
  ⟨tallyA_correct_eq_zero qs ans h 1, rfl⟩

theorem c10_witness :
    (∀ q ∈ qsC10W, stripNonDigits q.correct = "")
    ∧ ((calculateResults qsC10W [(1, "1"), (2, "2")]).correct = 0
        ∧ (calculateResults qsC10W [(1, "1"), (2, "2")]).total
          = (showOfflineResults qsC10W [(1, "1"), (2, "2")]).total) :=
  ⟨by decide, c10_amended_basic_variant_scores_zero_on_letters qsC10W [(1, "1"), (2, "2")]
    (by decide)⟩

end QuizGen
